import Mathlib

/-!
Verification development for the XK-12 joystick game repository.

The repository contains four near-duplicate pygame programs driven by an
X-keys XK-12 HID joystick:
  - `g.py`       : the arcade "grow by eating" variant,
  - `invaders.py`: the shooter ("space invaders") variant,
  - `p.py`       : the joystick debug visualizer,
  - `game.py`    : an arrow visualizer.

This file gives a shallow embedding of the HID report decoder and of the
per-tick game-state updates of the arcade and shooter variants, and proves
or refutes the frozen specification claims about them.

Conventions of the embedding:
  - python byte values are `ℕ`, pixel coordinates are `ℤ`, normalized axis
    values are `ℚ` (the float arithmetic involved is exact decimal-free
    division, so `ℚ` reproduces it wherever a claim depends on it);
  - `random.*` calls are modelled by explicit oracle parameters holding the
    values the random source produced;
  - rejection-sampling placement loops (`place_enemy_safely`,
    `spawn_player_safely`) consume a list of candidate positions and take
    the first acceptable one (with a fallback when the list is exhausted,
    standing for the probability-1 eventual success of the python loop);
  - python's scoping hazard in `invaders.Game.update_game_state` (reading
    `pressed_buttons` when it was never bound) is modelled by an `Except`
    result, `.error` standing for the `NameError` python would raise.
-/

namespace XK12

/-- State of one entry of the 12-entry button latch.  `g.py` and `p.py`
initialize the latch to `None` (modelled `unset`); `invaders.py` uses
`'Released'`.  The decoder only ever compares entries against `"Pressed"`. -/
inductive BState where
  | unset
  | pressed
  | released
deriving DecidableEq

/-- The column → button-number table of `parse_joystick`
(`button_map = {0: [1,5,9], 1: [2,6,10], 2: [3,7,11], 3: [4,8,12]}`). -/
def button_map : List (List ℕ) := [[1, 5, 9], [2, 6, 10], [3, 7, 11], [4, 8, 12]]

/-- `button_map[column][bit]` as a total lookup. -/
def buttonAt (c b : ℕ) : ℕ := (button_map.getD c []).getD b 0

/-- The (column, bit) pairs in the iteration order of the nested loops
`for column in range(4): for bit in range(3):`. -/
def btnPairs : List (ℕ × ℕ) :=
  [(0, 0), (0, 1), (0, 2), (1, 0), (1, 1), (1, 2),
   (2, 0), (2, 1), (2, 2), (3, 0), (3, 1), (3, 2)]

/-- One iteration of the button loops of `parse_joystick`: reads bit `cb.2`
of byte `data[2 + cb.1]`, updates the latch entry and appends the button
number to the pressed list exactly when a Released→Pressed edge occurs. -/
def parseButtonsStep (data : List ℕ) (p : List BState × List ℕ) (cb : ℕ × ℕ) :
    List BState × List ℕ :=
  let idx := buttonAt cb.1 cb.2 - 1
  if Nat.testBit (data.getD (2 + cb.1) 0) cb.2 then
    if p.1.getD idx .unset ≠ .pressed then
      (p.1.set idx .pressed, p.2 ++ [buttonAt cb.1 cb.2])
    else p
  else
    if p.1.getD idx .unset = .pressed then (p.1.set idx .released, p.2)
    else p

/-- The button-latch part of `parse_joystick` (identical in `g.py`, `p.py`
and `invaders.py`): returns the updated latch and the list of button
numbers whose Released→Pressed edge fired during this decode. -/
def parse_buttons (data : List ℕ) (states : List BState) :
    List BState × List ℕ :=
  btnPairs.foldl (parseButtonsStep data) (states, [])

/-- `normalize_joystick_value` from `g.py` / `p.py` / `invaders.py`:
`(value - 256)/128` when `value > 128`, else `value/127`. -/
def normalize_joystick_value (value : ℕ) : ℚ :=
  if value > 128 then ((value : ℚ) - 256) / 128 else (value : ℚ) / 127

/-- `normalize_y_axis` from `g.py` (plain alias of the generic policy). -/
def normalize_y_axis (value : ℕ) : ℚ := normalize_joystick_value value

/-- `normalize_y_axis` from `p.py`: the directional half-range policy,
`(value - 127)/127` for `0 ≤ value ≤ 127`, else `(255 - value)/128`. -/
def p_normalize_y_axis (value : ℕ) : ℚ :=
  if value ≤ 127 then ((value : ℚ) - 127) / 127 else ((255 : ℚ) - value) / 128

/-- The axis part of `parse_joystick` in `g.py`: raw bytes 6, 7, 8 are the
x, y, z readings; the caller-side sign inversions of y and z are part of
the function in the source. -/
def parse_joystick_axes (data : List ℕ) : ℚ × ℚ × ℚ :=
  (normalize_joystick_value (data.getD 6 0),
   -normalize_y_axis (data.getD 7 0),
   -normalize_joystick_value (data.getD 8 0))

/-- `parse_joystick` of `g.py`: latch update plus normalized axes (the
pressed list is only printed there, not returned). -/
def parse_joystick (data : List ℕ) (states : List BState) :
    List BState × (ℚ × ℚ × ℚ) :=
  ((parse_buttons data states).1, parse_joystick_axes data)

/-- `JoystickHandler.parse_joystick` of `invaders.py`: same latch update,
and all three axes use the plain policy with no sign inversion; the
pressed list is returned to the caller. -/
def inv_parse_joystick (data : List ℕ) (states : List BState) :
    List BState × List ℕ × ℚ × ℚ × ℚ :=
  let r := parse_buttons data states
  (r.1, r.2,
   normalize_joystick_value (data.getD 6 0),
   normalize_joystick_value (data.getD 7 0),
   normalize_joystick_value (data.getD 8 0))

/-- C1 counterexample: the decoder does not map raw byte 0 to -1.0 (it maps
it to 0), nor raw 128 to ≈0 (it maps it to 128/127 ≈ +1.008), nor raw 255
to ≈+1.0 (it maps it to -1/128 ≈ -0.008). -/
theorem c1_counterexample :
    normalize_joystick_value 0 = 0 ∧ normalize_joystick_value 0 ≠ -1 ∧
    normalize_joystick_value 128 = 128 / 127 ∧
    ¬ |normalize_joystick_value 128| < 1 / 2 ∧
    normalize_joystick_value 255 = -1 / 128 ∧
    ¬ |normalize_joystick_value 255 - 1| < 1 / 2 := by
  refine ⟨by norm_num [normalize_joystick_value], ?_, ?_, ?_, ?_, ?_⟩ <;>
    norm_num [normalize_joystick_value, abs]

/-- C1 (amended): under the signed policy of `normalize_joystick_value` the
raw byte is decoded like a two's-complement deflection centred at raw 0:
raw 0 → 0, raw 127 → +1.0, raw 128 → 128/127 (just above +1), raw 129 →
-127/128 (≈ -1), raw 255 → -1/128 (just below 0). -/
theorem c1_amended :
    normalize_joystick_value 0 = 0 ∧
    normalize_joystick_value 127 = 1 ∧
    normalize_joystick_value 128 = 128 / 127 ∧
    normalize_joystick_value 129 = -(127 / 128) ∧
    normalize_joystick_value 255 = -(1 / 128) := by
  refine ⟨?_, ?_, ?_, ?_, ?_⟩ <;> norm_num [normalize_joystick_value]

/-- One loop iteration preserves the latch length. -/
theorem parseButtonsStep_length (data : List ℕ) (p : List BState × List ℕ)
    (cb : ℕ × ℕ) : ((parseButtonsStep data p cb).1).length = p.1.length := by
  simp only [parseButtonsStep]
  split_ifs <;> simp

/-- Folding loop iterations preserves the latch length. -/
theorem foldl_parseButtonsStep_length (data : List ℕ) (L : List (ℕ × ℕ))
    (p : List BState × List ℕ) :
    ((L.foldl (parseButtonsStep data) p).1).length = p.1.length := by
  induction L generalizing p with
  | nil => rfl
  | cons cb L ih => rw [List.foldl_cons, ih, parseButtonsStep_length]

/-- A loop iteration for a different button leaves a latch entry unchanged. -/
theorem parseButtonsStep_getD_ne (data : List ℕ) (p : List BState × List ℕ)
    (cb : ℕ × ℕ) (i : ℕ) (h : buttonAt cb.1 cb.2 - 1 ≠ i) :
    ((parseButtonsStep data p cb).1).getD i .unset = p.1.getD i .unset := by
  simp only [parseButtonsStep]
  split_ifs <;> simp [List.getD, List.getElem?_set_ne h]

/-- Folding iterations that all handle other buttons leaves entry `i` alone. -/
theorem foldl_getD_ne (data : List ℕ) (L : List (ℕ × ℕ))
    (p : List BState × List ℕ) (i : ℕ)
    (h : ∀ cb ∈ L, buttonAt cb.1 cb.2 - 1 ≠ i) :
    ((L.foldl (parseButtonsStep data) p).1).getD i .unset = p.1.getD i .unset := by
  induction L generalizing p with
  | nil => rfl
  | cons cb L ih =>
    rw [List.foldl_cons, ih _ (fun x hx => h x (List.mem_cons_of_mem _ hx)),
      parseButtonsStep_getD_ne _ _ _ _ (h cb (List.mem_cons_self _ _))]

/-- Membership in the pressed list after one loop iteration. -/
theorem parseButtonsStep_mem_snd (data : List ℕ) (p : List BState × List ℕ)
    (cb : ℕ × ℕ) (n : ℕ) :
    (n ∈ (parseButtonsStep data p cb).2 ↔ n ∈ p.2 ∨
      (n = buttonAt cb.1 cb.2 ∧ Nat.testBit (data.getD (2 + cb.1) 0) cb.2 ∧
        p.1.getD (buttonAt cb.1 cb.2 - 1) .unset ≠ .pressed)) := by
  simp only [parseButtonsStep]
  split_ifs with h1 h2 h3 <;> simp_all

/-- Iterations for other buttons never emit button number `n`. -/
theorem foldl_mem_snd_ne (data : List ℕ) (L : List (ℕ × ℕ))
    (p : List BState × List ℕ) (n : ℕ)
    (h : ∀ cb ∈ L, buttonAt cb.1 cb.2 ≠ n) :
    (n ∈ (L.foldl (parseButtonsStep data) p).2 ↔ n ∈ p.2) := by
  induction L generalizing p with
  | nil => exact Iff.rfl
  | cons cb L ih =>
    rw [List.foldl_cons, ih _ (fun x hx => h x (List.mem_cons_of_mem _ hx)),
      parseButtonsStep_mem_snd]
    have hne := h cb (List.mem_cons_self _ _)
    simp only [or_iff_left_iff_imp]
    exact fun h1 => absurd h1.1.symm hne

/-- Reading back a freshly written latch entry. -/
theorem getD_set_self (l : List BState) (i : ℕ) (v : BState) (h : i < l.length) :
    (l.set i v).getD i .unset = v := by
  simp [List.getD, List.getElem?_set_eq_of_lt _ h]

/-- Decomposition of the full button loop around the single iteration that
handles the button of pair `(c, b)`: that button's edge fires exactly on a
bit-set with a non-Pressed latch entry, and the latch entry afterwards is
Pressed / Released / unchanged per the source's branches. -/
theorem parse_buttons_split (data : List ℕ) (P1 P2 : List (ℕ × ℕ)) (c b : ℕ)
    (st : List BState) (hidx : buttonAt c b - 1 < st.length)
    (h1i : ∀ cb ∈ P1, buttonAt cb.1 cb.2 - 1 ≠ buttonAt c b - 1)
    (h1n : ∀ cb ∈ P1, buttonAt cb.1 cb.2 ≠ buttonAt c b)
    (h2i : ∀ cb ∈ P2, buttonAt cb.1 cb.2 - 1 ≠ buttonAt c b - 1)
    (h2n : ∀ cb ∈ P2, buttonAt cb.1 cb.2 ≠ buttonAt c b) :
    (buttonAt c b ∈ ((P1 ++ (c, b) :: P2).foldl (parseButtonsStep data) (st, [])).2 ↔
      (Nat.testBit (data.getD (2 + c) 0) b ∧
        st.getD (buttonAt c b - 1) .unset ≠ .pressed)) ∧
    ((P1 ++ (c, b) :: P2).foldl (parseButtonsStep data) (st, [])).1.getD
        (buttonAt c b - 1) .unset =
      (if Nat.testBit (data.getD (2 + c) 0) b then .pressed
       else if st.getD (buttonAt c b - 1) .unset = .pressed then .released
       else st.getD (buttonAt c b - 1) .unset) := by
  rw [List.foldl_append, List.foldl_cons]
  have hget : ((P1.foldl (parseButtonsStep data) (st, [])).1).getD
      (buttonAt c b - 1) .unset = st.getD (buttonAt c b - 1) .unset :=
    foldl_getD_ne data P1 (st, []) _ h1i
  have hlen : ((P1.foldl (parseButtonsStep data) (st, [])).1).length = st.length :=
    foldl_parseButtonsStep_length data P1 (st, [])
  have hmem : ¬ buttonAt c b ∈ (P1.foldl (parseButtonsStep data) (st, [])).2 := by
    rw [foldl_mem_snd_ne data P1 (st, []) _ h1n]
    simp
  set q := P1.foldl (parseButtonsStep data) (st, []) with hq
  simp only [parseButtonsStep, hget]
  split_ifs with hbit hpr hpr2
  · constructor
    · rw [foldl_mem_snd_ne data P2 _ _ h2n]
      exact iff_of_true (by simp) ⟨hbit, hpr⟩
    · rw [foldl_getD_ne data P2 _ _ h2i]
      exact getD_set_self _ _ _ (hlen ▸ hidx)
  · constructor
    · rw [foldl_mem_snd_ne data P2 _ _ h2n]
      exact iff_of_false hmem (fun h => h.2 (not_not.mp hpr))
    · rw [foldl_getD_ne data P2 _ _ h2i, hget]
      simp at hpr
      simp [hpr]
  · constructor
    · rw [foldl_mem_snd_ne data P2 _ _ h2n]
      exact iff_of_false hmem (fun h => hbit h.1)
    · rw [foldl_getD_ne data P2 _ _ h2i]
      exact getD_set_self _ _ _ (hlen ▸ hidx)
  · constructor
    · rw [foldl_mem_snd_ne data P2 _ _ h2n]
      exact iff_of_false hmem (fun h => hbit h.1)
    · rw [foldl_getD_ne data P2 _ _ h2i, hget]

/-- Single-decode characterization of the button part of `parse_joystick`,
for every one of the 12 buttons (latch index `i` corresponds to column
`i % 4`, bit `i / 4`): the button number appears in the pressed list iff
its bit is set and the latch entry was not Pressed, and the latch entry
afterwards is Pressed when the bit is set, Released on a Pressed→clear
transition, and unchanged otherwise. -/
theorem parse_buttons_spec (data : List ℕ) (st : List BState)
    (hst : st.length = 12) (i : ℕ) (hi : i < 12) :
    (buttonAt (i % 4) (i / 4) ∈ (parse_buttons data st).2 ↔
      (Nat.testBit (data.getD (2 + i % 4) 0) (i / 4) ∧
        st.getD i .unset ≠ .pressed)) ∧
    (parse_buttons data st).1.getD i .unset =
      (if Nat.testBit (data.getD (2 + i % 4) 0) (i / 4) then .pressed
       else if st.getD i .unset = .pressed then .released
       else st.getD i .unset) := by
  have hlt : ∀ m : ℕ, m < 12 → m < st.length := by
    intro m hm
    rw [hst]
    exact hm
  unfold parse_buttons btnPairs
  interval_cases i
  · exact parse_buttons_split data []
      [(0, 1), (0, 2), (1, 0), (1, 1), (1, 2), (2, 0), (2, 1), (2, 2), (3, 0), (3, 1), (3, 2)]
      0 0 st (hlt 0 (by decide)) (by decide) (by decide) (by decide) (by decide)
  · exact parse_buttons_split data [(0, 0), (0, 1), (0, 2)]
      [(1, 1), (1, 2), (2, 0), (2, 1), (2, 2), (3, 0), (3, 1), (3, 2)]
      1 0 st (hlt 1 (by decide)) (by decide) (by decide) (by decide) (by decide)
  · exact parse_buttons_split data [(0, 0), (0, 1), (0, 2), (1, 0), (1, 1), (1, 2)]
      [(2, 1), (2, 2), (3, 0), (3, 1), (3, 2)]
      2 0 st (hlt 2 (by decide)) (by decide) (by decide) (by decide) (by decide)
  · exact parse_buttons_split data
      [(0, 0), (0, 1), (0, 2), (1, 0), (1, 1), (1, 2), (2, 0), (2, 1), (2, 2)]
      [(3, 1), (3, 2)]
      3 0 st (hlt 3 (by decide)) (by decide) (by decide) (by decide) (by decide)
  · exact parse_buttons_split data [(0, 0)]
      [(0, 2), (1, 0), (1, 1), (1, 2), (2, 0), (2, 1), (2, 2), (3, 0), (3, 1), (3, 2)]
      0 1 st (hlt 4 (by decide)) (by decide) (by decide) (by decide) (by decide)
  · exact parse_buttons_split data [(0, 0), (0, 1), (0, 2), (1, 0)]
      [(1, 2), (2, 0), (2, 1), (2, 2), (3, 0), (3, 1), (3, 2)]
      1 1 st (hlt 5 (by decide)) (by decide) (by decide) (by decide) (by decide)
  · exact parse_buttons_split data
      [(0, 0), (0, 1), (0, 2), (1, 0), (1, 1), (1, 2), (2, 0)]
      [(2, 2), (3, 0), (3, 1), (3, 2)]
      2 1 st (hlt 6 (by decide)) (by decide) (by decide) (by decide) (by decide)
  · exact parse_buttons_split data
      [(0, 0), (0, 1), (0, 2), (1, 0), (1, 1), (1, 2), (2, 0), (2, 1), (2, 2), (3, 0)]
      [(3, 2)]
      3 1 st (hlt 7 (by decide)) (by decide) (by decide) (by decide) (by decide)
  · exact parse_buttons_split data [(0, 0), (0, 1)]
      [(1, 0), (1, 1), (1, 2), (2, 0), (2, 1), (2, 2), (3, 0), (3, 1), (3, 2)]
      0 2 st (hlt 8 (by decide)) (by decide) (by decide) (by decide) (by decide)
  · exact parse_buttons_split data [(0, 0), (0, 1), (0, 2), (1, 0), (1, 1)]
      [(2, 0), (2, 1), (2, 2), (3, 0), (3, 1), (3, 2)]
      1 2 st (hlt 9 (by decide)) (by decide) (by decide) (by decide) (by decide)
  · exact parse_buttons_split data
      [(0, 0), (0, 1), (0, 2), (1, 0), (1, 1), (1, 2), (2, 0), (2, 1)]
      [(3, 0), (3, 1), (3, 2)]
      2 2 st (hlt 10 (by decide)) (by decide) (by decide) (by decide) (by decide)
  · exact parse_buttons_split data
      [(0, 0), (0, 1), (0, 2), (1, 0), (1, 1), (1, 2), (2, 0), (2, 1), (2, 2), (3, 0), (3, 1)]
      []
      3 2 st (hlt 11 (by decide)) (by decide) (by decide) (by decide) (by decide)

/-- After a decode, a latch entry is Pressed exactly when its bit was set
in the decoded report. -/
theorem parse_buttons_getD_pressed (data : List ℕ) (st : List BState)
    (hst : st.length = 12) (i : ℕ) (hi : i < 12) :
    ((parse_buttons data st).1.getD i .unset = .pressed ↔
      Nat.testBit (data.getD (2 + i % 4) 0) (i / 4)) := by
  rw [(parse_buttons_spec data st hst i hi).2]
  split_ifs with h1 h2
  · exact iff_of_true rfl h1
  · exact iff_of_false (by decide) h1
  · exact iff_of_false h2 h1

/-- Decoding preserves the latch length. -/
theorem parse_buttons_length (data : List ℕ) (st : List BState) :
    ((parse_buttons data st).1).length = st.length :=
  foldl_parseButtonsStep_length data btnPairs (st, [])

/-- Repeated decoding with a persisted latch, as performed by the callers
which invoke `parse_joystick` once per queued report threading
`button_states` through: returns the final latch and the per-decode
pressed lists. -/
def decode_run (st : List BState) : List (List ℕ) → List BState × List (List ℕ)
  | [] => (st, [])
  | d :: ds =>
    ((decode_run (parse_buttons d st).1 ds).1,
     (parse_buttons d st).2 :: (decode_run (parse_buttons d st).1 ds).2)

/-- Per-decode edge characterization: an edge for latch index `i` is
emitted at decode `j` exactly when the bit is set at `j` and either `j`
is the first decode with the latch not starting Pressed, or the bit was
clear at decode `j - 1`. -/
theorem decode_run_edge (i : ℕ) (hi : i < 12) (st : List BState)
    (hst : st.length = 12) (reports : List (List ℕ)) (j : ℕ)
    (hj : j < reports.length) :
    (buttonAt (i % 4) (i / 4) ∈ (decode_run st reports).2.getD j [] ↔
      (Nat.testBit ((reports.getD j []).getD (2 + i % 4) 0) (i / 4) ∧
        (if j = 0 then st.getD i .unset ≠ .pressed
         else
          ¬ Nat.testBit ((reports.getD (j - 1) []).getD (2 + i % 4) 0) (i / 4)))) := by
  induction reports generalizing st j with
  | nil => simp at hj
  | cons d ds ih =>
    cases j with
    | zero =>
      have h := (parse_buttons_spec d st hst i hi).1
      simpa [decode_run] using h
    | succ k =>
      have hst2 : ((parse_buttons d st).1).length = 12 := by
        rw [parse_buttons_length]
        exact hst
      have hk : k < ds.length := by simpa using hj
      have h := ih ((parse_buttons d st).1) hst2 k hk
      rw [show (decode_run st (d :: ds)).2.getD (k + 1) [] =
            (decode_run (parse_buttons d st).1 ds).2.getD k [] from rfl,
        h, if_neg (Nat.succ_ne_zero k)]
      cases k with
      | zero =>
        rw [if_pos rfl]
        exact and_congr Iff.rfl
          (not_congr (parse_buttons_getD_pressed d st hst i hi))
      | succ m =>
        rw [if_neg (Nat.succ_ne_zero m)]
        exact Iff.rfl

/-- C6: for every button and every sequence of decodes with a persisted
latch, (1) a pressed edge is emitted at decode `j` exactly on the
Released→Pressed transition: the bit is set at `j` and either `j` is the
first decode with the latch not starting Pressed, or the bit was clear at
decode `j - 1` (so a Pressed→Released transition is never collected, and
releasing then re-pressing emits a second edge); (2) holding the button
pressed across all decodes emits the edge only at the very first decode —
exactly one edge for a latch that did not start Pressed. -/
theorem c6_button_edge_semantics (i : ℕ) (hi : i < 12) (st : List BState)
    (hst : st.length = 12) (reports : List (List ℕ)) :
    (∀ j, j < reports.length →
      (buttonAt (i % 4) (i / 4) ∈ (decode_run st reports).2.getD j [] ↔
        (Nat.testBit ((reports.getD j []).getD (2 + i % 4) 0) (i / 4) ∧
          (if j = 0 then st.getD i .unset ≠ .pressed
           else
            ¬ Nat.testBit ((reports.getD (j - 1) []).getD (2 + i % 4) 0) (i / 4))))) ∧
    ((∀ j, j < reports.length →
        Nat.testBit ((reports.getD j []).getD (2 + i % 4) 0) (i / 4)) →
      ∀ j, j < reports.length →
        (buttonAt (i % 4) (i / 4) ∈ (decode_run st reports).2.getD j [] ↔
          (j = 0 ∧ st.getD i .unset ≠ .pressed))) := by
  constructor
  · exact fun j hj => decode_run_edge i hi st hst reports j hj
  · intro hold j hj
    rw [decode_run_edge i hi st hst reports j hj]
    cases j with
    | zero =>
      rw [if_pos rfl]
      exact ⟨fun h => ⟨rfl, h.2⟩, fun h => ⟨hold 0 hj, h.2⟩⟩
    | succ m =>
      rw [if_neg (Nat.succ_ne_zero m)]
      have h2 := hold m (by omega)
      exact ⟨fun h => absurd h2 h.2, fun h => absurd h.1 (Nat.succ_ne_zero m)⟩

/-- C6 witness: with a fresh latch, holding button 1 through two decodes of
report `[0,0,1,0,0,0,0,0,0]` emits no edge at the second decode. -/
theorem c6_witness :
    ¬ buttonAt (0 % 4) (0 / 4) ∈
      (decode_run (List.replicate 12 BState.unset)
        [[0, 0, 1, 0, 0, 0, 0, 0, 0], [0, 0, 1, 0, 0, 0, 0, 0, 0]]).2.getD 1 [] := by
  rw [(c6_button_edge_semantics 0 (by decide) (List.replicate 12 BState.unset)
    (by decide) [[0, 0, 1, 0, 0, 0, 0, 0, 0], [0, 0, 1, 0, 0, 0, 0, 0, 0]]).1 1
    (by decide)]
  decide

/-! ### Arcade variant (`g.py`)

Pixel coordinates are `ℤ`; a pygame `Rect` is position plus extent.
`random.*` results are supplied by oracle records.  Python's `int()`
truncation of a float is `ratTrunc`; python `//` and pygame's C integer
division on nonnegative extents agree with `Int.tdiv`. -/

/-- Truncation toward zero, python's `int()` on an exact ratio. -/
def ratTrunc (q : ℚ) : ℤ := Int.tdiv q.num (q.den : ℤ)

structure GRect where
  x : ℤ
  y : ℤ
  w : ℤ
  h : ℤ
deriving DecidableEq

/-- The 800×600 screen rect. -/
def SCREEN_RECT : GRect := ⟨0, 0, 800, 600⟩

/-- `pygame.Rect.colliderect`: strict overlap on both axes. -/
def collide_rect (a b : GRect) : Bool :=
  decide (a.x < b.x + b.w) && decide (b.x < a.x + a.w) &&
  decide (a.y < b.y + b.h) && decide (b.y < a.y + a.h)

/-- `pygame.Rect.clamp_ip(screen)`: move the rect inside the screen,
centering an axis on which it is too large to fit. -/
def clamp_ip (r scr : GRect) : GRect :=
  let nx :=
    if scr.w ≤ r.w then scr.x + Int.tdiv (scr.w - r.w) 2
    else if r.x < scr.x then scr.x
    else if scr.x + scr.w < r.x + r.w then scr.x + scr.w - r.w
    else r.x
  let ny :=
    if scr.h ≤ r.h then scr.y + Int.tdiv (scr.h - r.h) 2
    else if r.y < scr.y then scr.y
    else if scr.y + scr.h < r.y + r.h then scr.y + scr.h - r.h
    else r.y
  { r with
    x := nx
    y := ny }

structure GPlayer where
  rect : GRect
  speed : ℤ
  size : ℤ
deriving DecidableEq

/-- `Player.__init__`: 50×50 surface centred on the screen, speed 5,
size 50. -/
def newGPlayer : GPlayer := ⟨⟨375, 275, 50, 50⟩, 5, 50⟩

/-- `Player.move`: add `axis * speed` (truncated on assignment to the
integer rect coordinates), y inverted, then clamp to the screen. -/
def GPlayer.move (p : GPlayer) (jx jy : ℚ) : GPlayer :=
  let nx := ratTrunc ((p.rect.x : ℚ) + jx * (p.speed : ℚ))
  let ny := ratTrunc ((p.rect.y : ℚ) - jy * (p.speed : ℚ))
  { p with rect := clamp_ip { p.rect with x := nx, y := ny } SCREEN_RECT }

/-- `Player.grow`: size increases by `5 * value`; the rect is recreated at
the new size with the old centre. -/
def GPlayer.grow (p : GPlayer) (value : ℤ) : GPlayer :=
  let nsize := p.size + 5 * value
  let cx := p.rect.x + Int.tdiv p.rect.w 2
  let cy := p.rect.y + Int.tdiv p.rect.h 2
  { p with
    size := nsize
    rect := ⟨cx - Int.tdiv nsize 2, cy - Int.tdiv nsize 2, nsize, nsize⟩ }

structure GFood where
  rect : GRect
  speed : ℤ
  dir : ℤ × ℤ
  value : ℤ
deriving DecidableEq

/-- Randomness of `Food.__init__`: position and initial direction. -/
structure FoodRand where
  pos : ℤ × ℤ
  dir : ℤ × ℤ
deriving DecidableEq

/-- `Food.__init__` with `value = 1` (the default used everywhere). -/
def newGFood (fr : FoodRand) : GFood := ⟨⟨fr.pos.1, fr.pos.2, 20, 20⟩, 1, fr.dir, 1⟩

/-- `Food.update`: move along the direction, then flip the direction
component on each axis whose wall was crossed. -/
def GFood.update (f : GFood) : GFood :=
  let r := { f.rect with
    x := f.rect.x + f.dir.1 * f.speed
    y := f.rect.y + f.dir.2 * f.speed }
  let dx := if r.x < 0 ∨ 800 < r.x + r.w then -f.dir.1 else f.dir.1
  let dy := if r.y < 0 ∨ 600 < r.y + r.h then -f.dir.2 else f.dir.2
  { f with rect := r, dir := (dx, dy) }

structure GEnemy where
  size : ℤ
  rect : GRect
  is_converted : Bool
  speed : ℤ
  dir : ℤ × ℤ
deriving DecidableEq

/-- Randomness of `Enemy.__init__`: size, position, initial direction. -/
structure EnemyInitRand where
  size : ℤ
  pos : ℤ × ℤ
  dir : ℤ × ℤ
deriving DecidableEq

/-- `Enemy.__init__`. -/
def newGEnemy (o : EnemyInitRand) : GEnemy :=
  ⟨o.size, ⟨o.pos.1, o.pos.2, o.size, o.size⟩, false, 2, o.dir⟩

/-- Randomness consumed by one `Enemy.update` call: the direction chosen
at conversion and the two `random.choice([-1, 1])` walk steps. -/
structure EnemyRand where
  convDir : ℤ × ℤ
  stepX : Bool
  stepY : Bool
deriving DecidableEq

def pm1 (b : Bool) : ℤ := if b then 1 else -1

/-- `Enemy.update`: convert when `player.size > self.size` and not yet
converted (recolour, slow to food speed, pick a fresh direction); then
either the food-like bouncing walk (converted) or the ±1 random walk
(unconverted); finally clamp to the screen. -/
def GEnemy.update (player_size : ℤ) (e : GEnemy) (o : EnemyRand) : GEnemy :=
  let e : GEnemy :=
    if player_size > e.size ∧ ¬ e.is_converted then
      { e with is_converted := true, speed := 1, dir := o.convDir }
    else e
  let e : GEnemy :=
    if e.is_converted then
      let r : GRect := { e.rect with
        x := e.rect.x + e.dir.1 * e.speed
        y := e.rect.y + e.dir.2 * e.speed }
      let dx : ℤ := if r.x < 0 ∨ 800 < r.x + r.w then -e.dir.1 else e.dir.1
      let dy : ℤ := if r.y < 0 ∨ 600 < r.y + r.h then -e.dir.2 else e.dir.2
      { e with rect := r, dir := (dx, dy) }
    else
      { e with rect := { e.rect with
        x := e.rect.x + pm1 o.stepX * e.speed
        y := e.rect.y + pm1 o.stepY * e.speed } }
  { e with rect := clamp_ip e.rect SCREEN_RECT }

/-- Arcade game state: the module-level mutable objects of `g.py`. -/
structure GState where
  player : GPlayer
  foods : List GFood
  enemies : List GEnemy
  game_over : Bool
  button_states : List BState
  queue : List (List ℕ)
deriving DecidableEq

/-- Randomness consumed by `spawn_new_enemy`: the overriding size, the
constructor's direction, and the candidate positions of
`place_enemy_safely` (with a fallback standing for the eventual success of
the unbounded rejection-sampling loop). -/
structure SpawnRand where
  size : ℤ
  dir : ℤ × ℤ
  candidates : List (ℤ × ℤ)
  fallback : ℤ × ℤ
deriving DecidableEq

/-- All randomness consumed by one arcade tick. -/
structure GOracle where
  foodNew : ℕ → FoodRand
  enemyUpd : ℕ → EnemyRand
  spawnNew : ℕ → SpawnRand
  resetFoods : ℕ → FoodRand
  resetEnemies : ℕ → EnemyInitRand
  playerCandidates : List (ℤ × ℤ)
  playerFallback : ℤ × ℤ

/-- `place_enemy_safely`: first candidate position overlapping neither the
player nor any existing enemy. -/
def place_enemy_safely (player : GPlayer) (others : List GEnemy) (e : GEnemy)
    (cands : List (ℤ × ℤ)) (fb : ℤ × ℤ) : GEnemy :=
  let ok : ℤ × ℤ → Bool := fun c =>
    let r := { e.rect with x := c.1, y := c.2 }
    !(collide_rect player.rect r) && others.all (fun o => !(collide_rect r o.rect))
  let c := (cands.find? ok).getD fb
  { e with rect := { e.rect with x := c.1, y := c.2 } }

/-- `spawn_new_enemy`: a fresh enemy with an overridden random size and a
zero-origin rect, placed safely and appended to the enemy group. -/
def spawn_new_enemy (player : GPlayer) (enemies : List GEnemy) (o : SpawnRand) :
    List GEnemy :=
  let e : GEnemy := ⟨o.size, ⟨0, 0, o.size, o.size⟩, false, 2, o.dir⟩
  enemies ++ [place_enemy_safely player enemies e o.candidates o.fallback]

/-- `spawn_player_safely`: first candidate centre whose rect overlaps no
enemy; sets `rect.center` only. -/
def spawn_player_safely (p : GPlayer) (enemies : List GEnemy)
    (cands : List (ℤ × ℤ)) (fb : ℤ × ℤ) : GPlayer :=
  let place : ℤ × ℤ → GRect := fun c =>
    { p.rect with x := c.1 - Int.tdiv p.rect.w 2, y := c.2 - Int.tdiv p.rect.h 2 }
  let ok : ℤ × ℤ → Bool := fun c =>
    enemies.all (fun e => !(collide_rect (place c) e.rect))
  let c := (cands.find? ok).getD fb
  { p with rect := place c }

/-- `reset_game`: respawn the player against the *old* enemy population,
reset its size attribute to 50 (the rect keeps its previous extent, as in
the source, which resizes only the image), then rebuild 5 foods and 3
enemies and clear the game-over flag. -/
def reset_game (st : GState) (o : GOracle) : GState :=
  let player := spawn_player_safely st.player st.enemies o.playerCandidates
    o.playerFallback
  let player := { player with size := 50 }
  { st with
    player := player
    foods := (List.range 5).map (fun i => newGFood (o.resetFoods i))
    enemies := (List.range 3).map (fun i => newGEnemy (o.resetEnemies i))
    game_over := false }

/-- Body of the drain loop of `handle_joystick_input`: decode one report
into the persisted latch and, unless the game is over, move the player by
the decoded axes. -/
def apply_report (st : GState) (data : List ℕ) : GState :=
  let pj := parse_joystick data st.button_states
  let st := { st with button_states := pj.1 }
  if st.game_over then st
  else { st with player := st.player.move pj.2.1 pj.2.2.1 }

/-- The `while not data_queue.empty()` drain loop over an explicit report
list. -/
def hji_loop (st : GState) : List (List ℕ) → GState
  | [] => st
  | d :: rest => hji_loop (apply_report st d) rest

/-- `handle_joystick_input`: drain the whole queue, applying each report
in arrival order. -/
def handle_joystick_input (st : GState) : GState :=
  hji_loop { st with queue := [] } st.queue

/-- `handle_reset_game`: whenever latch entry 0 reads `"Pressed"`, run the
full reset — in both the game-over and the not-game-over branch alike. -/
def handle_reset_game (st : GState) (o : GOracle) : GState :=
  if st.button_states.getD 0 .unset = BState.pressed then
    if st.game_over then reset_game st o else reset_game st o
  else st

def MAX_FOOD_ITEMS : ℕ := 10

/-- The `for food in collided_foods` loop of `handle_food_collisions`:
grow per food and append a replacement food only while under the cap. -/
def food_replenish_loop (player : GPlayer) (foods : List GFood)
    (collided : List GFood) (o : ℕ → FoodRand) (k : ℕ) : GPlayer × List GFood :=
  match collided with
  | [] => (player, foods)
  | f :: rest =>
    let player := player.grow f.value
    let foods := if foods.length < MAX_FOOD_ITEMS then foods ++ [newGFood (o k)]
      else foods
    food_replenish_loop player foods rest o (k + 1)

/-- `handle_food_collisions`: `spritecollide(..., True)` removes every
food overlapping the player, then the loop grows the player and
replenishes under the cap. -/
def handle_food_collisions (st : GState) (o : GOracle) : GState :=
  let collided := st.foods.filter (fun f => collide_rect st.player.rect f.rect)
  let remaining := st.foods.filter (fun f => !(collide_rect st.player.rect f.rect))
  let pr := food_replenish_loop st.player remaining collided o.foodNew 0
  { st with player := pr.1, foods := pr.2 }

/-- `handle_enemy_collisions`: overlap with any unconverted enemy sets the
global game-over flag. -/
def handle_enemy_collisions (st : GState) : GState :=
  if st.enemies.any (fun e => collide_rect st.player.rect e.rect && !e.is_converted)
  then { st with game_over := true } else st

/-- `all_sprites.update()`: the player class has no update method; foods
and enemies update independently. -/
def update_sprites (st : GState) (o : GOracle) : GState :=
  { st with
    foods := st.foods.map GFood.update
    enemies := st.enemies.enum.map
      (fun p => GEnemy.update st.player.size p.2 (o.enemyUpd p.1)) }

/-- Rescaling of one rect by `adjust_zoom`: truncate the scaled extent and
re-centre on the old centre. -/
def zoom_rect (zf : ℚ) (r : GRect) : GRect :=
  let cx := r.x + Int.tdiv r.w 2
  let cy := r.y + Int.tdiv r.h 2
  let nw := ratTrunc ((r.w : ℚ) * zf)
  let nh := ratTrunc ((r.h : ℚ) * zf)
  ⟨cx - Int.tdiv nw 2, cy - Int.tdiv nh 2, nw, nh⟩

/-- `adjust_zoom`: when the player exceeds 15% of the arena width
(`player.rect.width / SCREEN_WIDTH > 0.15`, which for integer widths is
exactly `120 < w` — see `zoom_guard_iff`), rescale every sprite towards
its own centre and re-centre the player. -/
def adjust_zoom (st : GState) : GState :=
  if 120 < st.player.rect.w then
    let zf : ℚ := ((3 : ℚ) / 20) / ((st.player.rect.w : ℚ) / 800)
    let pr : GRect := zoom_rect zf st.player.rect
    let pr2 : GRect := { pr with
      x := 400 - Int.tdiv pr.w 2
      y := 300 - Int.tdiv pr.h 2 }
    { st with
      player := { st.player with rect := pr2 }
      foods := st.foods.map (fun (f : GFood) => { f with rect := zoom_rect zf f.rect })
      enemies := st.enemies.map
        (fun (en : GEnemy) => { en with rect := zoom_rect zf en.rect }) }
  else st

/-- Fidelity of the zoom guard: the source's exact rational comparison
`w / 800 > 0.15` coincides with the integer comparison `120 < w` used in
`adjust_zoom`. -/
theorem zoom_guard_iff (w : ℤ) : ((3 : ℚ) / 20 < (w : ℚ) / 800) ↔ 120 < w := by
  rw [div_lt_div_iff₀ (by norm_num : (0 : ℚ) < 20) (by norm_num : (0 : ℚ) < 800)]
  constructor
  · intro h
    have h2 : (120 : ℚ) < w := by linarith
    exact_mod_cast h2
  · intro h
    have h2 : (120 : ℚ) < w := by exact_mod_cast h
    linarith

/-- The `for enemy in list(enemies)` loop removing converted enemies that
overlap the player. -/
def remove_eaten (st : GState) : GState :=
  { st with
    enemies := st.enemies.filter
      (fun e => !(e.is_converted && collide_rect st.player.rect e.rect)) }

/-- One bounded run of the `while len(enemies) < 3: spawn_new_enemy()`
maintenance loop.  Each pass appends exactly one enemy, so the python
loop runs at most `3 - len(enemies)` times; a fuel of 3 therefore
reproduces it exactly whenever it terminates (it always does). -/
def maintain_loop (player : GPlayer) (enemies : List GEnemy)
    (o : ℕ → SpawnRand) (k : ℕ) : ℕ → List GEnemy
  | 0 => enemies
  | fuel + 1 =>
    if enemies.length < 3 then
      maintain_loop player (spawn_new_enemy player enemies (o k)) o (k + 1) fuel
    else enemies

/-- The `while len(enemies) < 3: spawn_new_enemy()` maintenance loop. -/
def maintain_enemies (player : GPlayer) (enemies : List GEnemy)
    (o : ℕ → SpawnRand) (k : ℕ) : List GEnemy :=
  maintain_loop player enemies o k 3

/-- The tail of `update_game_state` after `handle_reset_game`: food and
enemy collisions, sprite updates, zoom, removal of eaten enemies, and
population maintenance. -/
def g_tick_rest (st : GState) (o : GOracle) : GState :=
  let st := handle_food_collisions st o
  let st := handle_enemy_collisions st
  let st := update_sprites st o
  let st := adjust_zoom st
  let st := remove_eaten st
  { st with enemies := maintain_enemies st.player st.enemies o.spawnNew 0 }

/-- `update_game_state` of `g.py`: drain input, maybe reset, then the
rest of the tick. -/
def g_update_game_state (st : GState) (o : GOracle) : GState :=
  g_tick_rest (handle_reset_game (handle_joystick_input st) o) o

/-- Effect of one `Enemy.update` on the conversion flag: it becomes
`true` exactly when it already was, or the player outgrew the enemy. -/
theorem update_is_converted (ps : ℤ) (e : GEnemy) (o : EnemyRand) :
    (GEnemy.update ps e o).is_converted = (e.is_converted || decide (ps > e.size)) := by
  by_cases hc : e.is_converted <;> by_cases hp : ps > e.size <;>
    simp [GEnemy.update, hc, hp]

/-- C7: an enemy's `is_converted` flag transitions from false to true
exactly when `player.size > enemy.size`, and once true it stays true under
any further sequence of updates (with any player sizes and randomness). -/
theorem c7_conversion :
    (∀ (ps : ℤ) (e : GEnemy) (o : EnemyRand),
      (GEnemy.update ps e o).is_converted = (e.is_converted || decide (ps > e.size))) ∧
    (∀ (steps : List (ℤ × EnemyRand)) (e : GEnemy), e.is_converted = true →
      (steps.foldl (fun x p => GEnemy.update p.1 x p.2) e).is_converted = true) := by
  refine ⟨update_is_converted, ?_⟩
  intro steps
  induction steps with
  | nil => exact fun e h => h
  | cons s rest ih =>
    intro e h
    rw [List.foldl_cons]
    exact ih _ (by simp [update_is_converted, h])

/-- A converted enemy used by the C7 witness. -/
def convertedEnemy : GEnemy := ⟨60, ⟨0, 0, 60, 60⟩, true, 1, (1, 0)⟩

/-- C7 witness: a converted enemy remains converted after a further tick. -/
theorem c7_witness :
    (([((100 : ℤ), (⟨(1, 0), true, true⟩ : EnemyRand))]).foldl
      (fun x p => GEnemy.update p.1 x p.2) convertedEnemy).is_converted = true :=
  c7_conversion.2 _ convertedEnemy rfl

/-- `spawn_new_enemy` adds exactly one enemy. -/
theorem spawn_new_enemy_length (p : GPlayer) (l : List GEnemy) (o : SpawnRand) :
    (spawn_new_enemy p l o).length = l.length + 1 := by
  simp [spawn_new_enemy]

/-- The maintenance loop always ends with at least 3 enemies. -/
theorem maintain_enemies_ge (p : GPlayer) (l : List GEnemy)
    (o : ℕ → SpawnRand) (k : ℕ) : 3 ≤ (maintain_enemies p l o k).length := by
  have key : ∀ (n : ℕ) (l : List GEnemy) (k : ℕ), 3 - l.length ≤ n →
      3 ≤ (maintain_loop p l o k n).length := by
    intro n
    induction n with
    | zero =>
      intro l k hl
      rw [maintain_loop]
      omega
    | succ n ih =>
      intro l k hl
      rw [maintain_loop]
      by_cases h : l.length < 3
      · rw [if_pos h]
        apply ih
        rw [spawn_new_enemy_length]
        omega
      · rw [if_neg h]
        omega
  exact key 3 l k (by omega)

/-- The shared random oracle used by concrete arcade evaluations. -/
def trivGOracle : GOracle :=
  { foodNew := fun _ => ⟨(0, 0), (1, 0)⟩
    enemyUpd := fun _ => ⟨(1, 0), true, true⟩
    spawnNew := fun _ => ⟨60, (1, 0), [(0, 0)], (0, 0)⟩
    resetFoods := fun _ => ⟨(0, 0), (1, 0)⟩
    resetEnemies := fun _ => ⟨60, (0, 0), (1, 0)⟩
    playerCandidates := [(400, 300)]
    playerFallback := (400, 300) }

/-- An arcade state whose three enemies are all converted and away from
the player; the queue is empty and no button is latched. -/
def gDemoState : GState :=
  { player := newGPlayer
    foods := []
    enemies := [⟨60, ⟨0, 0, 60, 60⟩, true, 1, (1, 0)⟩,
                ⟨60, ⟨70, 0, 60, 60⟩, true, 1, (1, 0)⟩,
                ⟨60, ⟨140, 0, 60, 60⟩, true, 1, (1, 0)⟩]
    game_over := false
    button_states := List.replicate 12 BState.unset
    queue := [] }

/-- C4 counterexample: after a tick of `gDemoState` all three maintained
enemies are converted, so the live *unconverted* adversary count is 0,
not at least 3 — maintenance counts converted enemies too. -/
theorem c4_counterexample :
    ¬ 3 ≤ ((g_update_game_state gDemoState trivGOracle).enemies.filter
        (fun e => !e.is_converted)).length := by decide

/-- C4 (amended): after any tick the total live adversary count
(converted or not) is at least the floor of 3. -/
theorem c4_amended (st : GState) (o : GOracle) :
    3 ≤ (g_update_game_state st o).enemies.length := by
  unfold g_update_game_state g_tick_rest
  exact maintain_enemies_ge _ _ _ _

/-- Splitting a list by a boolean predicate preserves total length. -/
theorem length_filter_split {α : Type} (l : List α) (p : α → Bool) :
    (l.filter p).length + (l.filter (fun a => !(p a))).length = l.length := by
  induction l with
  | nil => rfl
  | cons a l ih =>
    by_cases h : p a <;> simp [List.filter_cons, h] <;> omega

/-- The replenish loop keeps the food count at or below the cap. -/
theorem food_replenish_loop_cap (player : GPlayer) (foods collided : List GFood)
    (o : ℕ → FoodRand) (k : ℕ) (h : foods.length ≤ 10) :
    (food_replenish_loop player foods collided o k).2.length ≤ 10 := by
  induction collided generalizing player foods k with
  | nil => simpa [food_replenish_loop] using h
  | cons f rest ih =>
    simp only [food_replenish_loop]
    split_ifs with hlt
    · apply ih
      simp only [MAX_FOOD_ITEMS] at hlt
      simp
      omega
    · exact ih _ _ _ h

/-- The replenish loop never adds more foods than were consumed. -/
theorem food_replenish_loop_len_le (player : GPlayer) (foods collided : List GFood)
    (o : ℕ → FoodRand) (k : ℕ) :
    (food_replenish_loop player foods collided o k).2.length ≤
      foods.length + collided.length := by
  induction collided generalizing player foods k with
  | nil => simp [food_replenish_loop]
  | cons f rest ih =>
    simp only [food_replenish_loop]
    split_ifs with hlt
    · have h2 := ih (player.grow f.value) (foods ++ [newGFood (o k)]) (k + 1)
      simp at h2 ⊢
      omega
    · have h2 := ih (player.grow f.value) foods (k + 1)
      simp at h2 ⊢
      omega

/-- At or above the cap the replenish loop adds nothing at all. -/
theorem food_replenish_loop_at_cap (player : GPlayer) (foods collided : List GFood)
    (o : ℕ → FoodRand) (k : ℕ) (h : 10 ≤ foods.length) :
    (food_replenish_loop player foods collided o k).2 = foods := by
  induction collided generalizing player k with
  | nil => rfl
  | cons f rest ih =>
    simp only [food_replenish_loop]
    rw [if_neg (by simp only [MAX_FOOD_ITEMS]; omega)]
    exact ih _ _

/-- `apply_report` leaves the food population untouched. -/
theorem apply_report_foods (st : GState) (d : List ℕ) :
    (apply_report st d).foods = st.foods := by
  simp only [apply_report]
  split_ifs <;> rfl

/-- The drain loop leaves the food population untouched. -/
theorem hji_loop_foods (q : List (List ℕ)) (st : GState) :
    (hji_loop st q).foods = st.foods := by
  induction q generalizing st with
  | nil => rfl
  | cons d rest ih => rw [hji_loop, ih, apply_report_foods]

/-- `handle_joystick_input` leaves the food population untouched. -/
theorem handle_joystick_input_foods (st : GState) :
    (handle_joystick_input st).foods = st.foods := by
  unfold handle_joystick_input
  rw [hji_loop_foods]

theorem handle_enemy_collisions_foods (st : GState) :
    (handle_enemy_collisions st).foods = st.foods := by
  unfold handle_enemy_collisions
  split_ifs <;> rfl

theorem remove_eaten_foods (st : GState) : (remove_eaten st).foods = st.foods := rfl

theorem update_sprites_foods (st : GState) (o : GOracle) :
    (update_sprites st o).foods = st.foods.map GFood.update := rfl

theorem adjust_zoom_foods_length (st : GState) :
    (adjust_zoom st).foods.length = st.foods.length := by
  simp only [adjust_zoom]
  split_ifs <;> simp

/-- After `handle_food_collisions`, the rest of the tick does not change
the food count. -/
theorem g_tick_rest_foods_length (st : GState) (o : GOracle) :
    (g_tick_rest st o).foods.length = (handle_food_collisions st o).foods.length := by
  unfold g_tick_rest
  rw [show ∀ (x : GState) (es : List GEnemy),
      ({ x with enemies := es } : GState).foods = x.foods from fun _ _ => rfl,
    remove_eaten_foods, adjust_zoom_foods_length, update_sprites_foods,
    List.length_map, handle_enemy_collisions_foods]

/-- C8: the food cap invariant of the arcade tick.  (1) A tick started at
or below the cap of 10 ends at or below it; (2) `handle_food_collisions`
never increases the live food count; (3) when the post-removal count has
already reached the cap, no consumed food is replenished at all. -/
theorem c8_food_cap :
    (∀ (st : GState) (o : GOracle), st.foods.length ≤ 10 →
      (g_update_game_state st o).foods.length ≤ 10) ∧
    (∀ (st : GState) (o : GOracle),
      (handle_food_collisions st o).foods.length ≤ st.foods.length) ∧
    (∀ (st : GState) (o : GOracle),
      10 ≤ (st.foods.filter (fun f => !(collide_rect st.player.rect f.rect))).length →
      (handle_food_collisions st o).foods =
        st.foods.filter (fun f => !(collide_rect st.player.rect f.rect))) := by
  refine ⟨?_, ?_, ?_⟩
  · intro st o h
    rw [show g_update_game_state st o =
        g_tick_rest (handle_reset_game (handle_joystick_input st) o) o from rfl,
      g_tick_rest_foods_length]
    have hst1 : (handle_reset_game (handle_joystick_input st) o).foods.length ≤ 10 := by
      unfold handle_reset_game
      split_ifs
      · simp [reset_game]
      · simp [reset_game]
      · rw [handle_joystick_input_foods]
        exact h
    unfold handle_food_collisions
    exact food_replenish_loop_cap _ _ _ _ _
      (le_trans (List.length_filter_le _ _) hst1)
  · intro st o
    have h1 := food_replenish_loop_len_le st.player
      (st.foods.filter (fun f => !(collide_rect st.player.rect f.rect)))
      (st.foods.filter (fun f => collide_rect st.player.rect f.rect)) o.foodNew 0
    have h2 := length_filter_split st.foods (fun f => collide_rect st.player.rect f.rect)
    dsimp only [handle_food_collisions]
    omega
  · intro st o h
    dsimp only [handle_food_collisions]
    exact food_replenish_loop_at_cap _ _ _ _ _ h

/-- An arcade state with 11 foods, none of which touches the player. -/
def gCapState : GState :=
  { gDemoState with foods :=
      [⟨⟨0, 0, 20, 20⟩, 1, (1, 0), 1⟩, ⟨⟨25, 0, 20, 20⟩, 1, (1, 0), 1⟩,
       ⟨⟨50, 0, 20, 20⟩, 1, (1, 0), 1⟩, ⟨⟨75, 0, 20, 20⟩, 1, (1, 0), 1⟩,
       ⟨⟨100, 0, 20, 20⟩, 1, (1, 0), 1⟩, ⟨⟨125, 0, 20, 20⟩, 1, (1, 0), 1⟩,
       ⟨⟨150, 0, 20, 20⟩, 1, (1, 0), 1⟩, ⟨⟨175, 0, 20, 20⟩, 1, (1, 0), 1⟩,
       ⟨⟨200, 0, 20, 20⟩, 1, (1, 0), 1⟩, ⟨⟨225, 0, 20, 20⟩, 1, (1, 0), 1⟩,
       ⟨⟨250, 0, 20, 20⟩, 1, (1, 0), 1⟩] }

/-- C8 witness: a tick from a compliant state stays within the cap, and a
state already at the cap is not replenished. -/
theorem c8_witness :
    (g_update_game_state gDemoState trivGOracle).foods.length ≤ 10 ∧
    (handle_food_collisions gCapState trivGOracle).foods =
      gCapState.foods.filter (fun f => !(collide_rect gCapState.player.rect f.rect)) :=
  ⟨c8_food_cap.1 gDemoState trivGOracle (by decide),
   c8_food_cap.2.2 gCapState trivGOracle (by decide)⟩

/-- C10: the arcade full reset runs on every tick in which latch entry 0
reads `Pressed` (a level, not an edge, and regardless of game-over), and
only then; the reset leaves the player at size 50 with 5 foods, 3 enemies
and the game-over flag cleared. -/
theorem c10_reset_on_level :
    (∀ (st : GState) (o : GOracle),
      ((handle_joystick_input st).button_states.getD 0 .unset = BState.pressed →
        g_update_game_state st o =
          g_tick_rest (reset_game (handle_joystick_input st) o) o) ∧
      ((handle_joystick_input st).button_states.getD 0 .unset ≠ BState.pressed →
        g_update_game_state st o = g_tick_rest (handle_joystick_input st) o)) ∧
    (∀ (st : GState) (o : GOracle),
      (reset_game st o).player.size = 50 ∧ (reset_game st o).foods.length = 5 ∧
      (reset_game st o).enemies.length = 3 ∧ (reset_game st o).game_over = false) := by
  constructor
  · intro st o
    constructor
    · intro h
      unfold g_update_game_state handle_reset_game
      rw [if_pos h]
      split_ifs <;> rfl
    · intro h
      unfold g_update_game_state handle_reset_game
      rw [if_neg h]
  · intro st o
    exact ⟨rfl, by simp [reset_game], by simp [reset_game], rfl⟩

/-- The demo state with the reset button held down. -/
def gPressedState : GState :=
  { gDemoState with button_states := BState.pressed :: List.replicate 11 BState.unset }

/-- C10 witness: with latch entry 0 Pressed (and the game not over), the
tick routes through the full reset. -/
theorem c10_witness :
    g_update_game_state gPressedState trivGOracle =
      g_tick_rest (reset_game (handle_joystick_input gPressedState) trivGOracle)
        trivGOracle :=
  (c10_reset_on_level.1 gPressedState trivGOracle).1 (by decide)

/-- `apply_report` leaves the queue untouched. -/
theorem apply_report_queue (st : GState) (d : List ℕ) :
    (apply_report st d).queue = st.queue := by
  simp only [apply_report]
  split_ifs <;> rfl

/-- The drain loop leaves the queue field untouched. -/
theorem hji_loop_queue (q : List (List ℕ)) (st : GState) :
    (hji_loop st q).queue = st.queue := by
  induction q generalizing st with
  | nil => rfl
  | cons d rest ih => rw [hji_loop, ih, apply_report_queue]

/-- The drain loop is the left fold of `apply_report`. -/
theorem hji_loop_eq_foldl (q : List (List ℕ)) (st : GState) :
    hji_loop st q = q.foldl apply_report st := by
  induction q generalizing st with
  | nil => rfl
  | cons d rest ih => rw [hji_loop, ih, List.foldl_cons]

/-! ### Shooter variant (`invaders.py`)

Asteroid and bullet movement uses `speed * cos/sin(angle)` in floating
point before truncation into the integer rect; those displacements are
supplied per entity by the oracle.  The turret angle
`joystick_z * math.pi * 180 / math.pi % 360` is modelled by the exact
value `jz * 180 % 360` (the π factors cancel).  `rounds.json` is external
configuration: the already-parsed round list is a field of the game
state, as the spec's external-interface section prescribes. -/

/-- Python's float `%` (sign of the divisor), exact on rationals. -/
def qfmod (a b : ℚ) : ℚ := a - b * ⌊a / b⌋

/-- One parsed record of `rounds.json`: the adversary colour (opaque id). -/
structure IRound where
  enemy_color : ℕ
deriving DecidableEq

structure IBullet where
  rect : GRect
  speed : ℤ
  angle : ℚ
deriving DecidableEq

structure IPlayer where
  rect : GRect
  turret_angle : ℚ
  bullets : List IBullet
  speed : ℤ
  lives : ℤ
  is_game_over : Bool
deriving DecidableEq

/-- `Player.__init__`: 50×50 centred, turret 0, no bullets, speed 5,
3 lives, own game-over flag false. -/
def newIPlayer : IPlayer := ⟨⟨375, 275, 50, 50⟩, 0, [], 5, 3, false⟩

structure IAsteroid where
  rect : GRect
  speed : ℤ
  angle : ℤ
  color : ℕ
deriving DecidableEq

/-- Randomness of `Asteroid.__init__`: centre, speed 1–3, angle 0–360. -/
structure AstRand where
  pos : ℤ × ℤ
  speed : ℤ
  angle : ℤ
deriving DecidableEq

/-- `Asteroid.__init__`: 30×30 rect centred at the random position. -/
def newIAsteroid (color : ℕ) (r : AstRand) : IAsteroid :=
  ⟨⟨r.pos.1 - 15, r.pos.2 - 15, 30, 30⟩, r.speed, r.angle, color⟩

/-- Shooter game state: the fields of `invaders.Game` together with the
joystick handler's latch and queue. -/
structure IGame where
  rounds : List IRound
  current_round_index : ℕ
  score : ℤ
  is_game_over : Bool
  player : IPlayer
  asteroids : List IAsteroid
  button_states : List BState
  queue : List (List ℕ)
deriving DecidableEq

/-- All randomness and float-displacement inputs of one shooter tick. -/
structure IOracle where
  astDisp : ℕ → ℤ × ℤ
  bulDisp : ℕ → ℤ × ℤ
  roundAst : ℕ → AstRand

/-- `Game.setup_round`: 10 fresh asteroids in the round's colour and a
fresh player (`self.player = Player(self.screen)`). -/
def setup_round (g : IGame) (round_index : ℕ) (o : IOracle) : IGame :=
  let color := (g.rounds.getD round_index ⟨0⟩).enemy_color
  { g with
    asteroids := (List.range 10).map (fun i => newIAsteroid color (o.roundAst i))
    player := newIPlayer }

/-- `Game.reset_game`: round 0, score 0, fresh round population, flag
cleared, lives (re)set to 3. -/
def i_reset_game (g : IGame) (o : IOracle) : IGame :=
  let g := { g with current_round_index := 0, score := 0 }
  let g := setup_round g 0 o
  let g := { g with is_game_over := false }
  { g with player := { g.player with lives := 3 } }

/-- `Game.check_round_completion`: when the asteroid group is empty,
advance the round index (clamped at the last round) and set that round
up. -/
def check_round_completion (g : IGame) (o : IOracle) : IGame :=
  if g.asteroids = [] then
    let idx := if g.current_round_index < g.rounds.length - 1
      then g.current_round_index + 1 else g.rounds.length - 1
    setup_round { g with current_round_index := idx } idx o
  else g

/-- `Player.lose_life`: decrement while positive; at zero, mark the
*player's own* game-over flag (`self.kill()` has no effect on the game
state, the player sprite belonging to no group). -/
def lose_life (p : IPlayer) : IPlayer :=
  let p := if 0 < p.lives then { p with lives := p.lives - 1 } else p
  if p.lives ≤ 0 then { p with is_game_over := true } else p

/-- `Asteroid.update` with the float displacement supplied: move, then
reflect the angle off any wall that was reached. -/
def IAsteroid.update (a : IAsteroid) (disp : ℤ × ℤ) : IAsteroid :=
  let r : GRect := { a.rect with x := a.rect.x + disp.1, y := a.rect.y + disp.2 }
  let ang : ℤ := if r.x ≤ 0 ∨ 800 ≤ r.x + r.w then 180 - a.angle else a.angle
  let ang : ℤ := if r.y ≤ 0 ∨ 600 ≤ r.y + r.h then -ang else ang
  { a with rect := r, angle := ang }

/-- `Bullet.update`: move by the supplied displacement; `self.kill()`
when the screen no longer contains the rect. -/
def IBullet.update (b : IBullet) (disp : ℤ × ℤ) : Option IBullet :=
  let r : GRect := { b.rect with x := b.rect.x + disp.1, y := b.rect.y + disp.2 }
  if 0 ≤ r.x ∧ r.x + r.w ≤ 800 ∧ 0 ≤ r.y ∧ r.y + r.h ≤ 600 then
    some { b with rect := r }
  else none

/-- `Player.update`: move by `int(axis * speed)`, clamp, set the turret
angle from the twist axis, and fire when button 1 is in the pressed
list. -/
def IPlayer.update (p : IPlayer) (jx jy jz : ℚ) (pressed : List ℕ) : IPlayer :=
  let r : GRect := { p.rect with x := p.rect.x + ratTrunc (jx * (p.speed : ℚ))
                                 y := p.rect.y + ratTrunc (jy * (p.speed : ℚ)) }
  let r : GRect := clamp_ip r SCREEN_RECT
  let t : ℚ := qfmod (jz * 180) 360
  let p := { p with rect := r, turret_angle := t }
  if 1 ∈ pressed then
    { p with bullets := p.bullets ++
        [⟨⟨p.rect.x + Int.tdiv p.rect.w 2 - 2, p.rect.y + Int.tdiv p.rect.h 2 - 2, 5, 5⟩,
          10, t⟩] }
  else p

/-- The `for bullet in self.player.bullets` collision loop: each bullet
removes every asteroid it overlaps; a hit scores 100 and kills the
bullet. -/
def bullet_collision_loop (bullets : List IBullet) (asteroids : List IAsteroid)
    (score : ℤ) : List IBullet × List IAsteroid × ℤ :=
  match bullets with
  | [] => ([], asteroids, score)
  | b :: rest =>
    let hit := asteroids.any (fun a => collide_rect b.rect a.rect)
    let asteroids2 := asteroids.filter (fun a => !(collide_rect b.rect a.rect))
    let r := bullet_collision_loop rest asteroids2 (if hit then score + 100 else score)
    (if hit then r.1 else b :: r.1, r.2.1, r.2.2)

/-- `Game.handle_collisions`: player–asteroid overlaps remove the
asteroids and cost one life; then the bullet loop. -/
def handle_collisions (g : IGame) : IGame :=
  let collided := g.asteroids.filter (fun a => collide_rect g.player.rect a.rect)
  let asteroids := g.asteroids.filter (fun a => !(collide_rect g.player.rect a.rect))
  let player := if collided = [] then g.player else lose_life g.player
  let bl := bullet_collision_loop player.bullets asteroids g.score
  { g with
    player := { player with bullets := bl.1 }
    asteroids := bl.2.1
    score := bl.2.2 }

/-- The `NameError` python raises when `pressed_buttons` is read without
having been bound. -/
inductive PyErr where
  | nameError
deriving DecidableEq

/-- The queue-draining head of `Game.update_game_state`: at most one
report is taken (`if not ... empty(): ... get()`); returns the updated
game and `pressed_buttons` when it was bound. -/
def i_input_stage (g : IGame) : IGame × Option (List ℕ) :=
  match g.queue with
  | [] => (g, none)
  | d :: rest =>
    let pj := inv_parse_joystick d g.button_states
    let g1 := { g with queue := rest, button_states := pj.1 }
    let g1 := if g1.is_game_over then g1
      else { g1 with player := g1.player.update pj.2.2.1 pj.2.2.2.1 pj.2.2.2.2 pj.2.1 }
    (g1, some pj.2.1)

/-- The tail of `Game.update_game_state` after the restart check:
asteroid updates, collisions, round completion, bullet updates. -/
def i_post_stage (g : IGame) (o : IOracle) : IGame :=
  let g := { g with
    asteroids := g.asteroids.enum.map (fun p => p.2.update (o.astDisp p.1)) }
  let g := handle_collisions g
  let g := check_round_completion g o
  { g with player := { g.player with bullets :=
      (g.player.bullets.enum.map (fun p => p.2.update (o.bulDisp p.1))).reduceOption } }

/-- `Game.update_game_state`: drain at most one report; when the game is
over, read `pressed_buttons` — a `NameError` if no report was drained —
and restart on button 2; then the post stage. -/
def i_update_game_state (g : IGame) (o : IOracle) : Except PyErr IGame :=
  let s := i_input_stage g
  if s.1.is_game_over then
    match s.2 with
    | none => .error .nameError
    | some pb =>
      .ok (i_post_stage (if 2 ∈ pb then i_reset_game s.1 o else s.1) o)
  else .ok (i_post_stage s.1 o)

theorem handle_collisions_igo (g : IGame) :
    (handle_collisions g).is_game_over = g.is_game_over := rfl

theorem check_round_completion_igo (g : IGame) (o : IOracle) :
    (check_round_completion g o).is_game_over = g.is_game_over := by
  unfold check_round_completion
  split_ifs <;> rfl

theorem check_round_completion_queue (g : IGame) (o : IOracle) :
    (check_round_completion g o).queue = g.queue := by
  unfold check_round_completion
  split_ifs <;> rfl

theorem i_post_stage_igo (g : IGame) (o : IOracle) :
    (i_post_stage g o).is_game_over = g.is_game_over := by
  dsimp only [i_post_stage]
  rw [show ∀ (x : IGame) (p : IPlayer),
      ({ x with player := p } : IGame).is_game_over = x.is_game_over from fun _ _ => rfl,
    check_round_completion_igo, handle_collisions_igo]

theorem i_post_stage_queue (g : IGame) (o : IOracle) :
    (i_post_stage g o).queue = g.queue := by
  dsimp only [i_post_stage]
  rw [show ∀ (x : IGame) (p : IPlayer),
      ({ x with player := p } : IGame).queue = x.queue from fun _ _ => rfl,
    check_round_completion_queue]
  rfl

theorem i_input_stage_igo (g : IGame) :
    (i_input_stage g).1.is_game_over = g.is_game_over := by
  obtain ⟨ro, idx, sc, igo, pl, asts, bs, q⟩ := g
  cases q with
  | nil => rfl
  | cons d rest =>
    dsimp only [i_input_stage]
    split_ifs <;> rfl

theorem i_input_stage_queue (g : IGame) :
    (i_input_stage g).1.queue = g.queue.drop 1 := by
  obtain ⟨ro, idx, sc, igo, pl, asts, bs, q⟩ := g
  cases q with
  | nil => rfl
  | cons d rest =>
    dsimp only [i_input_stage]
    split_ifs <;> rfl

/-- The shared oracle used by concrete shooter evaluations: every
asteroid drifts 3 pixels left per tick. -/
def trivIOracle : IOracle :=
  { astDisp := fun _ => (-3, 0)
    bulDisp := fun _ => (0, 0)
    roundAst := fun _ => ⟨(400, 300), 1, 0⟩ }

/-- A freshly reset shooter game whose 10 asteroids are positioned so
that, drifting 3 px left per tick, they hit the player on three
consecutive ticks. -/
def c2_start : IGame :=
  { rounds := [⟨0⟩], current_round_index := 0, score := 0, is_game_over := false,
    player := newIPlayer,
    asteroids := [⟨⟨385, 285, 30, 30⟩, 1, 0, 0⟩, ⟨⟨429, 285, 30, 30⟩, 1, 0, 0⟩,
                  ⟨⟨433, 285, 30, 30⟩, 1, 0, 0⟩, ⟨⟨60, 500, 30, 30⟩, 1, 0, 0⟩,
                  ⟨⟨120, 500, 30, 30⟩, 1, 0, 0⟩, ⟨⟨180, 500, 30, 30⟩, 1, 0, 0⟩,
                  ⟨⟨240, 500, 30, 30⟩, 1, 0, 0⟩, ⟨⟨300, 500, 30, 30⟩, 1, 0, 0⟩,
                  ⟨⟨360, 500, 30, 30⟩, 1, 0, 0⟩, ⟨⟨420, 500, 30, 30⟩, 1, 0, 0⟩],
    button_states := List.replicate 12 BState.released, queue := [] }

/-- C2 (code bug): the controller's exposed `Game.is_game_over` flag never
becomes true — `lose_life` only sets the dead `Player.is_game_over` flag.
(1) From any not-game-over state, a tick yields a not-game-over state;
(2) three collision ticks from a fresh game leave the player at 0 lives
with the game state still Playing. -/
theorem c2_game_over_unreachable :
    (∀ (g : IGame) (o : IOracle), g.is_game_over = false →
      (i_update_game_state g o).map (fun x => x.is_game_over) = .ok false) ∧
    ((i_update_game_state c2_start trivIOracle).bind
        (fun x => (i_update_game_state x trivIOracle).bind
          (fun y => i_update_game_state y trivIOracle))).map
        (fun x => (x.player.lives, x.is_game_over)) = .ok (0, false) := by
  constructor
  · intro g o h
    have hs : (i_input_stage g).1.is_game_over = false := by
      rw [i_input_stage_igo, h]
    simp only [i_update_game_state, hs, Bool.false_eq_true, if_false, Except.map]
    rw [i_post_stage_igo, hs]
  · rfl

/-- C2 witness: a concrete not-game-over tick stays not game over. -/
theorem c2_witness :
    (i_update_game_state c2_start trivIOracle).map (fun x => x.is_game_over) =
      .ok false :=
  c2_game_over_unreachable.1 c2_start trivIOracle rfl

/-- A shooter game state in GameOver with an empty report queue. -/
def c9_game : IGame :=
  { rounds := [⟨0⟩], current_round_index := 0, score := 0, is_game_over := true,
    player := newIPlayer, asteroids := [⟨⟨60, 500, 30, 30⟩, 1, 0, 0⟩],
    button_states := List.replicate 12 BState.released, queue := [] }

/-- C9 (code bug): with the game over and no queued report, the tick
raises — `pressed_buttons` is read without ever having been bound. -/
theorem c9_name_error :
    i_update_game_state c9_game trivIOracle = .error .nameError := rfl

/-- A shooter game state with two queued all-zero reports. -/
def c3_game : IGame :=
  { rounds := [⟨0⟩], current_round_index := 0, score := 0, is_game_over := false,
    player := newIPlayer, asteroids := [],
    button_states := List.replicate 12 BState.released,
    queue := [List.replicate 33 0, List.replicate 33 0] }

/-- C3 counterexample: the shooter consumer takes at most one report per
tick — one of two queued reports is still queued after the tick, where
drain-all semantics would leave none. -/
theorem c3_counterexample :
    (i_update_game_state c3_game trivIOracle).map (fun g => g.queue.length) =
      .ok 1 := rfl

/-- C3 (amended): the arcade consumer drains the whole queue each tick,
applying every drained report in order (so axis motion accumulates over
the batch and the latch threads through all of it), while the shooter
consumer removes at most one report per tick. -/
theorem c3_drain_semantics :
    (∀ st : GState, (handle_joystick_input st).queue = [] ∧
      handle_joystick_input st = st.queue.foldl apply_report { st with queue := [] }) ∧
    (∀ (g : IGame) (o : IOracle), g.is_game_over = false →
      (i_update_game_state g o).map (fun x => x.queue) = .ok (g.queue.drop 1)) := by
  constructor
  · intro st
    refine ⟨?_, hji_loop_eq_foldl _ _⟩
    unfold handle_joystick_input
    rw [hji_loop_queue]
  · intro g o h
    have hs : (i_input_stage g).1.is_game_over = false := by
      rw [i_input_stage_igo, h]
    simp only [i_update_game_state, hs, Bool.false_eq_true, if_false, Except.map]
    rw [i_post_stage_queue, i_input_stage_queue]

/-- C3 witness: a concrete shooter tick leaves exactly the tail of the
queue, and a concrete arcade drain empties the queue. -/
theorem c3_witness :
    (i_update_game_state c3_game trivIOracle).map (fun x => x.queue) =
      .ok (c3_game.queue.drop 1) ∧
    (handle_joystick_input gDemoState).queue = [] :=
  ⟨c3_drain_semantics.2 c3_game trivIOracle rfl,
   (c3_drain_semantics.1 gDemoState).1⟩

/-- A shooter game on its first of two rounds, out of asteroids, with the
player down to one life. -/
def c5_game : IGame :=
  { rounds := [⟨5⟩, ⟨7⟩], current_round_index := 0, score := 300,
    is_game_over := false, player := { newIPlayer with lives := 1 },
    asteroids := [], button_states := List.replicate 12 BState.released,
    queue := [] }

/-- C5 counterexample: the round transition recreates the player
(`setup_round` runs `Player(self.screen)`), so a player on 1 life has 3
again afterwards — lives are *not* left unchanged by the transition. -/
theorem c5_counterexample :
    c5_game.player.lives = 1 ∧
    (check_round_completion c5_game trivIOracle).player.lives = 3 :=
  ⟨rfl, rfl⟩

/-- C5 (amended): when the adversary population is empty, the round index
advances by one clamped at the last index, the new round's 10 asteroids
carry that round's configured colour, the score is unchanged — but the
player is recreated, resetting lives to 3 and clearing bullets. -/
theorem c5_round_transition (g : IGame) (o : IOracle) (h : g.asteroids = [])
    (_hr : g.rounds ≠ []) (_hi : g.current_round_index < g.rounds.length) :
    (check_round_completion g o).current_round_index =
      min (g.current_round_index + 1) (g.rounds.length - 1) ∧
    (check_round_completion g o).asteroids = (List.range 10).map
      (fun i => newIAsteroid ((g.rounds.getD
        (min (g.current_round_index + 1) (g.rounds.length - 1)) ⟨0⟩).enemy_color)
        (o.roundAst i)) ∧
    (check_round_completion g o).score = g.score ∧
    (check_round_completion g o).player.lives = 3 ∧
    (check_round_completion g o).player.bullets = [] := by
  have hidx : (if g.current_round_index < g.rounds.length - 1
      then g.current_round_index + 1 else g.rounds.length - 1) =
      min (g.current_round_index + 1) (g.rounds.length - 1) := by
    split_ifs with hlt <;> omega
  unfold check_round_completion
  rw [if_pos h]
  dsimp only [setup_round]
  rw [hidx]
  exact ⟨rfl, rfl, rfl, rfl, rfl⟩

/-- C5 witness: the concrete transition preserves the score and resets
lives to 3. -/
theorem c5_witness :
    (check_round_completion c5_game trivIOracle).score = c5_game.score ∧
    (check_round_completion c5_game trivIOracle).player.lives = 3 :=
  ⟨(c5_round_transition c5_game trivIOracle rfl (by decide) (by decide)).2.2.1,
   (c5_round_transition c5_game trivIOracle rfl (by decide) (by decide)).2.2.2.1⟩

end XK12
